import Mathlib

/-!
Verification of the PartField Gradio front end (gradio_app.py).

The Python source is shallowly embedded: pure helpers become Lean
functions; filesystem and subprocess effects are supplied through an
explicit environment record describing the outcome of each external
operation, and the orchestration function returns, besides the
(status, artifacts, pca, log) tuple of the source, a trace of the
external operations it performed, in order, plus the final state of
the two directories the claims talk about.  An uncaught Python
exception is modelled by the PyResult.exn constructor.
-/

namespace PartField

/-- Python truthiness and exceptions: a computation either returns
normally or raises an uncaught exception carrying a message. -/
inductive PyResult (α : Type) where
  | ok (a : α)
  | exn (msg : String)
deriving DecidableEq, Repr

/-- Occurrence of `needle` at some position of `hay` (character lists;
structural recursion so that the kernel can evaluate it). -/
def occursIn (needle : List Char) : List Char → Bool
  | [] => needle.isEmpty
  | c :: cs => needle.isPrefixOf (c :: cs) || occursIn needle cs

/-- Model of the Python membership test `sub in hay` on strings. -/
def pyContains (hay sub : String) : Bool :=
  occursIn sub.toList hay.toList

/-- Python `str.split(sep)` for a one-character separator (the only
separators the source uses are single characters). -/
def splitOnChar (sep : Char) : List Char → List (List Char)
  | [] => [[]]
  | c :: cs =>
    match splitOnChar sep cs, decide (c = sep) with
    | r, true => [] :: r
    | t :: ts, false => (c :: t) :: ts
    | [], false => [[c]]

/-- Python `str.lower()` (the strings reached here are ASCII). -/
def pyLower (s : String) : String :=
  String.mk (s.toList.map Char.toLower)

/-- Model of Python string slicing `s[-n:]`: the last `n` characters. -/
def pyTail (s : String) (n : Nat) : String :=
  String.mk (s.toList.drop (s.toList.length - n))

/-- Python `str.endswith(suffix)`. -/
def pyEndsWith (s suffix : String) : Bool :=
  suffix.toList.isSuffixOf s.toList

/-- Model of Python `str(b)` for a bool: "True" / "False". -/
def pyStrBool (b : Bool) : String :=
  if b then "True" else "False"

/-- `pathlib.PurePath.name`: the final path component, with empty
components (trailing or doubled separators) dropped as pathlib does. -/
def pyName (path : String) : String :=
  String.mk ((((splitOnChar '/') path.toList).filter (fun c => ¬ c.isEmpty)).getLastD [])

/-- Index of the last '.' in a list of characters, if any. -/
def lastDotIdx (cs : List Char) : Option Nat :=
  match cs.reverse.findIdx? (fun c => c = '.') with
  | some j => some (cs.length - 1 - j)
  | none => none

/-- `pathlib.PurePath.suffix`: the extension of the final component.
CPython computes `i = name.rfind('.')` and returns `name[i:]` when
`0 < i < len(name) - 1`, else the empty string. -/
def pySuffix (path : String) : String :=
  let name := pyName path
  let cs := name.toList
  match lastDotIdx cs with
  | some i => if 0 < i ∧ i < cs.length - 1 then String.mk (cs.drop i) else ""
  | none => ""

/-- `pathlib.PurePath.stem`: the final component without its suffix.
CPython returns `name[:i]` when `0 < i < len(name) - 1`, else `name`. -/
def pyStem (path : String) : String :=
  let name := pyName path
  let cs := name.toList
  match lastDotIdx cs with
  | some i => if 0 < i ∧ i < cs.length - 1 then String.mk (cs.take i) else name
  | none => name

/-- Decimal value of a digit run. -/
def digitsToNat (cs : List Char) : Nat :=
  cs.foldl (fun n c => n * 10 + (c.toNat - 48)) 0

/-- Model of Python `int(s)` on the strings reachable here: optional
surrounding whitespace, optional sign, then a nonempty digit run;
anything else raises ValueError, modelled as `none`.  (The Python
underscore-grouping rule is unreachable: the parsed token is produced
by `split('_')` and so never contains an underscore.) -/
def pyIntCs (chars : List Char) : Option Int :=
  let cs := (chars.dropWhile Char.isWhitespace).reverse.dropWhile Char.isWhitespace |>.reverse
  match cs with
  | [] => none
  | c :: rest =>
    let signed : Int × List Char :=
      if c = '-' then (-1, rest) else if c = '+' then (1, rest) else (1, c :: rest)
    if signed.2 ≠ [] ∧ signed.2.all Char.isDigit then
      some (signed.1 * (digitsToNat signed.2 : Int))
    else none

/-- Model of Python `int(s)` on a string. -/
def pyInt (s : String) : Option Int :=
  pyIntCs s.toList

/-! ## Configuration constants (gradio_app.py lines 22-27) -/

def DEFAULT_JOBS_DIR : String := "/workspace/jobs"
def MODEL_CHECKPOINT : String := "model/model_objaverse.ckpt"
def CONFIG_FILE : String := "configs/final/demo.yaml"
def SUPPORTED_EXTENSIONS : List String := [".obj", ".glb", ".off", ".ply"]
def JOB_EXPIRY_HOURS : Int := 24

/-! ## validate_file (gradio_app.py lines 74-97) -/

/-- Facts about the uploaded file that `validate_file` inspects via the
filesystem: its path string, whether it exists, and its size in bytes. -/
structure FileInfo where
  path : String
  exists_ : Bool
  sizeBytes : Nat
deriving DecidableEq, Repr

/-- `validate_file`: returns (is_valid, message).  The size test
`size_mb > 100` with `size_mb = size / (1024*1024)` is the exact
rational comparison `sizeBytes > 100 * 1024 * 1024` (double precision
is exact at this magnitude for the boundary). -/
def validate_file (f : FileInfo) : Bool × String :=
  if f.path = "" then (false, "No file uploaded")
  else if ¬ f.exists_ then (false, "File does not exist")
  else
    let ext := pyLower (pySuffix f.path)
    if ¬ SUPPORTED_EXTENSIONS.contains ext then
      (false, "Unsupported format: " ++ ext ++ ". Supported: .obj, .glb, .off, .ply")
    else if f.sizeBytes > 100 * 1024 * 1024 then
      (false, "File too large (max 100MB)")
    else
      let stem := pyLower (pyStem f.path)
      if stem = "car" ∨ stem = "complex_car" then
        (false, "The filename \x27" ++ pyName f.path ++ "\x27 is reserved and will be skipped by the model. Please rename your file.")
      else
        (true, "File valid")

/-! ## run_command (gradio_app.py lines 100-124) -/

/-- Outcome of a subprocess invocation, as the environment supplies it:
either the process ran to completion with an exit code and combined
stdout/stderr text, or an exception was raised during spawn or output
capture. -/
inductive SpawnOutcome where
  | completed (returncode : Int) (output : String)
  | raised (msg : String)
deriving DecidableEq, Repr

/-- `run_command`: the whole body is inside try/except; a completed
process yields (returncode == 0, output), any exception yields
(False, "Command failed: " + str(e)).  The cmd and cwd arguments are
kept for the signature but the outcome is the oracle. -/
def run_command (cmd : List String) (cwd : String) (outcome : SpawnOutcome) : Bool × String :=
  match cmd, cwd, outcome with
  | _, _, .completed rc output => (rc == 0, output)
  | _, _, .raised msg => (false, "Command failed: " ++ msg)

/-! ## cleanup_old_jobs (gradio_app.py lines 42-60) -/

/-- One entry of `jobs_dir.iterdir()`: its name, whether it is a
directory, its stat mtime in seconds, and whether `stat` or
`shutil.rmtree` would raise on it. -/
structure JobEntry where
  name : String
  isDir : Bool
  mtime : Int
  statFails : Bool
  rmtreeFails : Bool
deriving DecidableEq, Repr

/-- The per-entry body of the sweep loop: an entry is removed (and
counted) exactly when it is a directory, `stat` succeeds, its mtime is
strictly before the cutoff, and `rmtree` succeeds; any exception is
swallowed, leaving the entry in place. -/
def sweepEntry (cutoff : Int) (e : JobEntry) : Bool :=
  e.isDir && !e.statFails && decide (e.mtime < cutoff) && !e.rmtreeFails

/-- `cleanup_old_jobs`: cutoff = now - expiry_hours (in seconds);
returns the count of removed directories together with the surviving
entries of the jobs root. -/
def cleanup_old_jobs (jobsDirExists : Bool) (entries : List JobEntry)
    (now : Int) (expiry_hours : Int) : Nat × List JobEntry :=
  if ¬ jobsDirExists then (0, entries)
  else
    let cutoff := now - expiry_hours * 3600
    let rec go : List JobEntry → Nat × List JobEntry
      | [] => (0, [])
      | e :: es =>
        let r := go es
        if sweepEntry cutoff e then (r.1 + 1, r.2) else (r.1, e :: r.2)
    go entries

/-! ## Result collection helpers (gradio_app.py lines 299-315) -/

/-- `get_cluster_count`: parse the final underscore-separated token of
the filename stem as an int; the try/except makes any parse failure
yield 0.  (`split` never returns an empty list, so `getLastD` only
supplies an unreachable default.) -/
def get_cluster_count (path : String) : Int :=
  (pyIntCs ((splitOnChar '_' (pyStem path).toList).getLastD [])).getD 0

/-- The key order used by `mesh_list.sort(key=get_cluster_count)`. -/
def clusterR (a b : String) : Prop :=
  get_cluster_count a ≤ get_cluster_count b

instance : DecidableRel clusterR := fun x y => Int.decLe (get_cluster_count x) (get_cluster_count y)

instance : IsTotal String clusterR :=
  ⟨fun x y => Int.le_total (get_cluster_count x) (get_cluster_count y)⟩

instance : IsTrans String clusterR := ⟨fun _ _ _ => Int.le_trans⟩

/-- Python `list.sort` is the (unique) stable ascending sort by the
key; `List.insertionSort` with the key order is that function. -/
def sortMeshList (files : List String) : List String :=
  files.insertionSort clusterR

/-! ## process_3d_file (gradio_app.py lines 129-343) -/

/-- The submission-time parameters of `process_3d_file` (field names as
in the source signature; the gradio progress object is UI-only and
elided). -/
structure Params where
  is_point_cloud : Bool
  max_clusters : Int
  use_agglomerative : Bool
  preprocess_mesh : Bool
  adjacency_option : Int
  add_knn_edges : Bool
  points_per_face : Int
  jobs_dir : String
deriving DecidableEq, Repr

/-- The external operations `process_3d_file` performs, in order; the
trace records which ran and when. -/
inductive Event where
  | validateInput | mkdirInput | mkdirOutput | copyInput | cleanupJobs
  | clearGpuPre | spawnStage1 | globPca | spawnStage2 | scanOutputs
  | clearGpuPost | rmtreeFeatures
deriving DecidableEq, Repr

/-- The outcomes the outside world hands each external operation of one
run: the job id drawn from uuid4, whether each mkdir/copy raises (and
with what message), the jobs-root state seen by the sweep, the two
subprocess outcomes, the glob results, and whether the features
directory exists when the final cleanup looks at it. -/
structure Env where
  jobId : String
  mkdirInputExn : Option String
  mkdirOutputExn : Option String
  copyExn : Option String
  jobsDirExists : Bool
  jobEntries : List JobEntry
  now : Int
  sysExecutable : String
  partfieldDir : String
  stage1 : SpawnOutcome
  pcaGlob : Option String
  stage2 : SpawnOutcome
  plyDirExists : Bool
  plyFiles : List String
  objFiles : List String
  featuresDirExists : Bool
deriving DecidableEq, Repr

/-- The stage-1 argument vector (gradio_app.py lines 211-225). -/
def inference_cmd (sysExecutable input_dir result_name : String) (p : Params) : List String :=
  [sysExecutable, "partfield_inference.py",
   "-c", CONFIG_FILE,
   "--opts",
   "continue_ckpt", MODEL_CHECKPOINT,
   "result_name", result_name,
   "dataset.data_path", input_dir,
   "is_pc", pyStrBool p.is_point_cloud,
   "n_point_per_face", toString p.points_per_face,
   "dataset.val_num_workers", "2",
   "dataset.val_batch_size", "1"]
  ++ (if p.preprocess_mesh ∧ ¬ p.is_point_cloud then ["preprocess_mesh", "True"] else [])

/-- The stage-2 argument vector (gradio_app.py lines 264-279). -/
def clustering_cmd (sysExecutable features_dir output_dir input_dir : String) (p : Params) : List String :=
  [sysExecutable, "run_part_clustering.py",
   "--root", features_dir,
   "--dump_dir", output_dir,
   "--source_dir", input_dir,
   "--max_num_clusters", toString p.max_clusters,
   "--is_pc", pyStrBool p.is_point_cloud,
   "--export_mesh", "True"]
  ++ (if ¬ p.is_point_cloud then
        ["--use_agglo", pyStrBool p.use_agglomerative,
         "--option", toString p.adjacency_option,
         "--with_knn", pyStrBool p.add_knn_edges]
      else [])

/-- What one run of `process_3d_file` produces: the returned tuple
(status, mesh file list, optional pca file, joined log) or an uncaught
exception; the ordered trace of external operations; and the final
state of the two directories the spec talks about — whether the
stage-1 features directory still exists, and the files in the
output/ply tree (the code never writes or deletes there, so they are
whatever clustering produced).  Log lines carry the source messages
without the wall-clock timestamp prefix. -/
structure ProcOutput where
  result : PyResult (String × List String × Option String × String)
  trace : List Event
  featuresDirFinal : Bool
  outputPlyFinal : List String
deriving DecidableEq, Repr

/-- `process_3d_file`, transcribed control-flow point by point.  Mesh
files are referred to by their file names (the source uses full paths
under output/ply; the constant directory prefix is dropped). -/
def process_3d_file (file : FileInfo) (p : Params) (env : Env) : ProcOutput :=
  let outputNow : List String := if env.plyDirExists then env.plyFiles ++ env.objFiles else []
  let v := validate_file file
  if ¬ v.1 then
    { result := .ok ("Error: " ++ v.2, [], none, "Validation failed: " ++ v.2),
      trace := [.validateInput],
      featuresDirFinal := env.featuresDirExists, outputPlyFinal := outputNow }
  else
    match env.mkdirInputExn with
    | some e =>
      { result := .exn e, trace := [.validateInput, .mkdirInput],
        featuresDirFinal := env.featuresDirExists, outputPlyFinal := outputNow }
    | none =>
    match env.mkdirOutputExn with
    | some e =>
      { result := .exn e, trace := [.validateInput, .mkdirInput, .mkdirOutput],
        featuresDirFinal := env.featuresDirExists, outputPlyFinal := outputNow }
    | none =>
    match env.copyExn with
    | some e =>
      { result := .exn e, trace := [.validateInput, .mkdirInput, .mkdirOutput, .copyInput],
        featuresDirFinal := env.featuresDirExists, outputPlyFinal := outputNow }
    | none =>
      let log1 : List String :=
        ["File validated successfully",
         "Created job directory: " ++ env.jobId,
         "Copied input file: " ++ pyName file.path]
      let removed := (cleanup_old_jobs env.jobsDirExists env.jobEntries env.now JOB_EXPIRY_HOURS).1
      let log2 := log1 ++ (if removed > 0 then ["Cleaned up " ++ toString removed ++ " old job(s)"] else [])
      let log3 := log2 ++ ["GPU memory cleared"]
      let input_dir := p.jobs_dir ++ "/" ++ env.jobId ++ "/input"
      let output_dir := p.jobs_dir ++ "/" ++ env.jobId ++ "/output"
      let result_name := "job_" ++ env.jobId
      let features_dir := env.partfieldDir ++ "/exp_results/" ++ result_name
      let cmd1 := inference_cmd env.sysExecutable input_dir result_name p
      let preview := String.intercalate " " (cmd1.take 5)
      let log4 := log3 ++ ["Starting feature extraction...", "Running: " ++ preview ++ "..."]
      let s1 := run_command cmd1 env.partfieldDir env.stage1
      let tracePre : List Event :=
        [.validateInput, .mkdirInput, .mkdirOutput, .copyInput, .cleanupJobs, .clearGpuPre, .spawnStage1]
      if ¬ s1.1 then
        if pyContains s1.2 "CUDA out of memory" || pyContains s1.2 "OutOfMemoryError" then
          { result := .ok ("Error: GPU out of memory. Try reducing \x27Points per face\x27 in advanced options.",
              [], none,
              String.intercalate "\n" (log4 ++ ["Feature extraction failed: GPU out of memory\n" ++ pyTail s1.2 500])),
            trace := tracePre,
            featuresDirFinal := env.featuresDirExists, outputPlyFinal := outputNow }
        else
          { result := .ok ("Error: Feature extraction failed", [], none,
              String.intercalate "\n" (log4 ++ ["Feature extraction failed:\n" ++ pyTail s1.2 1000])),
            trace := tracePre,
            featuresDirFinal := env.featuresDirExists, outputPlyFinal := outputNow }
      else
        let log5 := log4 ++ ["Feature extraction completed"]
        let pca_file := env.pcaGlob
        let log6 := log5 ++ ["Starting clustering...",
          "Running clustering with max " ++ toString p.max_clusters ++ " clusters..."]
        let cmd2 := clustering_cmd env.sysExecutable features_dir output_dir input_dir p
        let s2 := run_command cmd2 env.partfieldDir env.stage2
        let trace2 := tracePre ++ [.globPca, .spawnStage2]
        if ¬ s2.1 then
          { result := .ok ("Error: Clustering failed", [], pca_file,
              String.intercalate "\n" (log6 ++ ["Clustering failed:\n" ++ pyTail s2.2 1000])),
            trace := trace2,
            featuresDirFinal := env.featuresDirExists, outputPlyFinal := outputNow }
        else
          let log7 := log6 ++ ["Clustering completed"]
          let mesh_files := if env.plyDirExists then sortMeshList (env.plyFiles ++ env.objFiles) else []
          let trace3 := trace2 ++ [.scanOutputs]
          if mesh_files = [] then
            { result := .ok ("Warning: No output files generated", [], pca_file,
                String.intercalate "\n" (log7 ++ ["Processing completed but no mesh files were generated"])),
              trace := trace3,
              featuresDirFinal := env.featuresDirExists, outputPlyFinal := outputNow }
          else
            let has_obj := mesh_files.any (fun f => pyEndsWith f ".obj")
            let format_note := if has_obj then " (with UV maps)" else ""
            let log8 := log7 ++ ["Generated " ++ toString mesh_files.length ++ " segmentation result(s)" ++ format_note]
            { result := .ok ("Success! Generated " ++ toString mesh_files.length ++ " segmentation(s) with 2 to "
                  ++ toString p.max_clusters ++ " parts" ++ format_note,
                mesh_files, pca_file,
                String.intercalate "\n" log8),
              trace := trace3 ++ [.clearGpuPost]
                ++ (if env.featuresDirExists then [.rmtreeFeatures] else []),
              featuresDirFinal := false, outputPlyFinal := outputNow }

/-! ## on_process result mapping (gradio_app.py lines 497-517) -/

/-- The label built for one mesh path.  The try/except in the source
cannot fire: `stem.split` always yields a nonempty list and no int
conversion happens here, so the except branch is dead code. -/
def mesh_label (mesh_path : String) : String :=
  let cluster_count := String.mk ((splitOnChar '_' (pyStem mesh_path).toList).getLastD [])
  let format_suffix := if pyLower (pySuffix mesh_path) = ".obj" then " (UV)" else ""
  cluster_count ++ " parts" ++ format_suffix

/-- Python dict assignment `m[k] = v`: overwrite in place if the key is
present, else append (dicts preserve insertion order). -/
def dictInsert (m : List (String × String)) (k v : String) : List (String × String) :=
  if m.any (fun kv => kv.1 = k) then m.map (fun kv => if kv.1 = k then (k, v) else kv)
  else m ++ [(k, v)]

/-- The `files_mapping` dict built by `on_process` over the mesh list. -/
def files_mapping (mesh_files : List String) : List (String × String) :=
  mesh_files.foldl (fun m mesh_path => dictInsert m (mesh_label mesh_path) mesh_path) []

/-- Python dict lookup `m[k]` / `m.get(k)`. -/
def pyDictGet (m : List (String × String)) (k : String) : Option String :=
  (m.find? (fun kv => kv.1 = k)).map (fun kv => kv.2)

/-! ## Projections and fixtures used by the theorems -/

/-- The status message of a normally returned result. -/
def statusOf (o : ProcOutput) : Option String :=
  match o.result with
  | .ok r => some r.1
  | .exn _ => none

/-- The artifact list of a normally returned result. -/
def meshFilesOf (o : ProcOutput) : Option (List String) :=
  match o.result with
  | .ok r => some r.2.1
  | .exn _ => none

/-- The auxiliary pca artifact of a normally returned result. -/
def pcaOf (o : ProcOutput) : Option (Option String) :=
  match o.result with
  | .ok r => some r.2.2.1
  | .exn _ => none

/-- The message of an uncaught exception, if the run raised one. -/
def raisedOf (o : ProcOutput) : Option String :=
  match o.result with
  | .ok _ => none
  | .exn e => some e

/-- A valid uploaded mesh file. -/
def okFile : FileInfo := { path := "model.obj", exists_ := true, sizeBytes := 1000 }

/-- The parameter defaults of the web form. -/
def defParams : Params :=
  { is_point_cloud := false, max_clusters := 20, use_agglomerative := true,
    preprocess_mesh := false, adjacency_option := 1, add_knn_edges := false,
    points_per_face := 1000, jobs_dir := "/workspace/jobs" }

/-- An environment in which every external operation succeeds and the
pipeline produces three artifacts. -/
def baseEnv : Env :=
  { jobId := "abcd1234", mkdirInputExn := none, mkdirOutputExn := none,
    copyExn := none, jobsDirExists := true, jobEntries := [], now := 1000000,
    sysExecutable := "python3", partfieldDir := "/workspace/partfield",
    stage1 := .completed 0 "ok", pcaGlob := some "feat_pca_0.ply",
    stage2 := .completed 0 "ok", plyDirExists := true,
    plyFiles := ["m_0_2.ply", "m_0_5.ply"], objFiles := ["m_0_5.obj"],
    featuresDirExists := true }

/-- The happy environment except that stage 1 exits nonzero with an
out-of-memory signature in its output. -/
def envOom : Env := { baseEnv with stage1 := .completed 1 "RuntimeError: CUDA out of memory" }

/-- The happy environment except that the input-file copy raises. -/
def envCopyFail : Env := { baseEnv with copyExn := some "PermissionError: [Errno 13] Permission denied" }

/-- The happy environment except that the output ply directory holds
no mesh files at all. -/
def envNoOut : Env := { baseEnv with plyFiles := [], objFiles := [] }

/-! ## Theorems -/

/-- The fold inside the sweep equals a filter characterization: the
removed count is the number of entries that are directories whose stat
succeeds, whose mtime is strictly before the cutoff and whose rmtree
succeeds; everything else survives. -/
theorem cleanup_go_eq (cutoff : Int) (entries : List JobEntry) :
    cleanup_old_jobs.go cutoff entries =
      ((entries.filter (fun e => sweepEntry cutoff e)).length,
       entries.filter (fun e => ! sweepEntry cutoff e)) := by
  induction entries with
  | nil => rfl
  | cons e es ih =>
    simp only [cleanup_old_jobs.go, ih, List.filter]
    cases h : sweepEntry cutoff e <;> simp [h]

/-- C4: `cleanup_old_jobs` removes exactly those immediate
subdirectories of the jobs root whose mtime is strictly older than now
minus the expiry threshold (default 24 hours), swallowing per-directory
stat/rmtree failures, and returns the count of directories actually
removed; everything else, non-directories included, survives. -/
theorem cleanup_old_jobs_removes_exactly_expired :
    JOB_EXPIRY_HOURS = 24 ∧
    ∀ (entries : List JobEntry) (now expiry_hours : Int),
      cleanup_old_jobs true entries now expiry_hours =
        ((entries.filter (fun e =>
            e.isDir && !e.statFails && decide (e.mtime < now - expiry_hours * 3600) && !e.rmtreeFails)).length,
         entries.filter (fun e =>
            !(e.isDir && !e.statFails && decide (e.mtime < now - expiry_hours * 3600) && !e.rmtreeFails))) := by
  refine ⟨rfl, fun entries now expiry_hours => ?_⟩
  unfold cleanup_old_jobs
  simp only [Bool.not_true, reduceIte]
  exact cleanup_go_eq _ entries

/-- C8: every input whose base name (case-insensitive, extension
stripped) is in the reserved blacklist is rejected by `validate_file`,
whatever its extension, existence or size. -/
theorem reserved_name_always_rejected (f : FileInfo)
    (h : pyLower (pyStem f.path) = "car" ∨ pyLower (pyStem f.path) = "complex_car") :
    (validate_file f).1 = false := by
  unfold validate_file
  split_ifs <;> simp_all <;> (try (split <;> rfl))

/-- C8 witness: a reserved name with a disallowed extension and one
with an allowed extension, in mixed case, are both rejected. -/
theorem reserved_name_always_rejected_witness :
    (validate_file { path := "car.xyz", exists_ := true, sizeBytes := 5 }).1 = false ∧
    (validate_file { path := "Complex_Car.obj", exists_ := true, sizeBytes := 5 }).1 = false :=
  ⟨reserved_name_always_rejected _ (Or.inl (by decide)),
   reserved_name_always_rejected _ (Or.inr (by decide))⟩

/-- C10: `run_command` is total for every command vector and working
directory: no exception escapes it; a completed process yields
(returncode == 0, output) — True exactly when the exit status is 0 —
and a raised exception is converted into (False, "Command failed: ..."). -/
theorem run_command_never_raises :
    (∀ (cmd : List String) (cwd : String) (rc : Int) (output : String),
       run_command cmd cwd (.completed rc output) = (rc == 0, output)) ∧
    (∀ (cmd : List String) (cwd : String) (msg : String),
       run_command cmd cwd (.raised msg) = (false, "Command failed: " ++ msg)) ∧
    (∀ (cmd : List String) (cwd : String) (o : SpawnOutcome),
       (run_command cmd cwd o).1 = true ↔ ∃ output, o = .completed 0 output) := by
  refine ⟨fun _ _ _ _ => rfl, fun _ _ _ => rfl, fun cmd cwd o => ?_⟩
  cases o with
  | completed rc output => simp [run_command, beq_iff_eq]
  | raised msg => simp [run_command]

/-- C10 witness: a spawn failure at a concrete command becomes a
structured failure result. -/
theorem run_command_never_raises_witness :
    run_command ["python3"] "/workspace/partfield" (.raised "boom") = (false, "Command failed: boom") :=
  run_command_never_raises.2.1 ["python3"] "/workspace/partfield" "boom"

/-- C5: the harvested list is sorted ascending by the parsed
part-count key, the sort is stable (for every key value, the elements
with that key appear in their original relative order, stated as a
filter identity), and a stem whose last underscore token does not
parse as an integer gets sort key 0 (the parse is total, never an
exception). -/
theorem harvest_sort_correct :
    (∀ l : List String, (sortMeshList l).Pairwise clusterR) ∧
    (∀ (l : List String) (k : Int),
       (sortMeshList l).filter (fun f => get_cluster_count f == k) =
         l.filter (fun f => get_cluster_count f == k)) ∧
    (∀ s : String, pyIntCs ((splitOnChar '_' (pyStem s).toList).getLastD []) = none →
       get_cluster_count s = 0) := by
  refine ⟨fun l => List.sorted_insertionSort clusterR l, fun l k => ?_, fun s h => ?_⟩
  · set p : String → Bool := fun f => get_cluster_count f == k with hp
    have hsub : List.Sublist (l.filter p) l := List.filter_sublist l
    have hpw : (l.filter p).Pairwise clusterR := by
      refine List.pairwise_of_forall_mem_list ?_
      intro a ha b hb
      have ha2 : get_cluster_count a = k := by
        have := (List.mem_filter.mp ha).2
        simpa [hp] using this
      have hb2 : get_cluster_count b = k := by
        have := (List.mem_filter.mp hb).2
        simpa [hp] using this
      unfold clusterR
      rw [ha2, hb2]
    have h1 : List.Sublist (l.filter p) (sortMeshList l) := List.sublist_insertionSort hpw hsub
    have h2 : List.Sublist ((l.filter p).filter p) ((sortMeshList l).filter p) := h1.filter p
    have hff : (l.filter p).filter p = l.filter p := by
      apply List.filter_eq_self.mpr
      intro a ha
      exact (List.mem_filter.mp ha).2
    rw [hff] at h2
    have hperm : List.Perm ((sortMeshList l).filter p) (l.filter p) :=
      (List.perm_insertionSort clusterR l).filter p
    exact (h2.eq_of_length hperm.length_eq.symm).symm
  · unfold get_cluster_count
    rw [h]
    rfl

/-- C5 witness: the spec example sorts [5,2,10] into [2,5,10], and an
unparsable last token gets key 0. -/
theorem harvest_sort_correct_witness :
    sortMeshList ["x_0_5.ply", "x_0_2.ply", "x_0_10.ply"] = ["x_0_2.ply", "x_0_5.ply", "x_0_10.ply"] ∧
    get_cluster_count "x_0_banana.ply" = 0 :=
  ⟨by decide, harvest_sort_correct.2.2 "x_0_banana.ply" (by decide)⟩

/-- The label of a UV-preserving (.obj) artifact ends in a different
character than the label of any other format, so the two never
collide as dict keys. -/
theorem mesh_label_ne_of_format (p q : String)
    (hp : pyLower (pySuffix p) ≠ ".obj") (hq : pyLower (pySuffix q) = ".obj") :
    mesh_label p ≠ mesh_label q := by
  intro heq
  have h1 : (mesh_label p).data.getLast? = some 's' := by
    unfold mesh_label
    simp only [if_neg hp]
    rw [String.append_empty, String.data_append, List.getLast?_append]
    rfl
  have h2 : (mesh_label q).data.getLast? = some (')' : Char) := by
    unfold mesh_label
    simp only [if_pos hq]
    rw [String.data_append, List.getLast?_append]
    rfl
  rw [heq, h2] at h1
  exact absurd h1 (by decide)

/-- Each pair of the dict is either an old pair or the inserted one. -/
theorem dictInsert_mem (m : List (String × String)) (k v : String) :
    ∀ kv ∈ dictInsert m k v, kv ∈ m ∨ kv = (k, v) := by
  intro kv hkv
  unfold dictInsert at hkv
  split at hkv
  · obtain ⟨kv0, hkv0, heq⟩ := List.mem_map.mp hkv
    split at heq
    · right; exact heq.symm
    · left; exact heq ▸ hkv0
  · rcases List.mem_append.mp hkv with h | h
    · left; exact h
    · right; simpa using h

/-- Dict assignment makes its key present. -/
theorem dictInsert_key_mem (m : List (String × String)) (k v : String) :
    (dictInsert m k v).any (fun kv => kv.1 = k) = true := by
  unfold dictInsert
  split
  · next hany =>
    rw [List.any_eq_true] at hany ⊢
    obtain ⟨kv0, hkv0, hkey⟩ := hany
    refine ⟨if kv0.1 = k then (k, v) else kv0, List.mem_map.mpr ⟨kv0, hkv0, rfl⟩, ?_⟩
    simp only [decide_eq_true_eq] at hkey
    simp [hkey]
  · rw [List.any_eq_true]
    exact ⟨(k, v), by simp⟩

/-- Dict assignment keeps every key that was already present. -/
theorem dictInsert_key_kept (m : List (String × String)) (k' v' k : String)
    (h : m.any (fun kv => kv.1 = k) = true) :
    (dictInsert m k' v').any (fun kv => kv.1 = k) = true := by
  unfold dictInsert
  split
  · rw [List.any_eq_true] at h ⊢
    obtain ⟨kv0, hkv0, hkey⟩ := h
    refine ⟨if kv0.1 = k' then (k', v') else kv0, List.mem_map.mpr ⟨kv0, hkv0, rfl⟩, ?_⟩
    simp only [decide_eq_true_eq] at hkey
    split
    · next hk0 => simp [← hk0, hkey]
    · simp [hkey]
  · rw [List.any_eq_true] at h ⊢
    obtain ⟨kv0, hkv0, hkey⟩ := h
    exact ⟨kv0, List.mem_append.mpr (Or.inl hkv0), hkey⟩

/-- Every pair ever put into the mapping binds a label to a mesh path
carrying exactly that label. -/
theorem files_mapping_go_invariant (files : List String) (m : List (String × String))
    (hm : ∀ kv ∈ m, kv.1 = mesh_label kv.2) :
    ∀ kv ∈ files.foldl (fun m mesh_path => dictInsert m (mesh_label mesh_path) mesh_path) m,
      kv.1 = mesh_label kv.2 := by
  induction files generalizing m with
  | nil => exact hm
  | cons x xs ih =>
    refine ih _ ?_
    intro kv hkv
    rcases dictInsert_mem m (mesh_label x) x kv hkv with h | h
    · exact hm kv h
    · rw [h]

/-- The label of every processed mesh file ends up as a key. -/
theorem files_mapping_go_key (files : List String) (m : List (String × String)) (k : String)
    (h : m.any (fun kv => kv.1 = k) = true ∨ ∃ x ∈ files, mesh_label x = k) :
    (files.foldl (fun m mesh_path => dictInsert m (mesh_label mesh_path) mesh_path) m).any
      (fun kv => kv.1 = k) = true := by
  induction files generalizing m with
  | nil =>
    rcases h with h | h
    · exact h
    · obtain ⟨x, hx, _⟩ := h
      exact absurd hx (List.not_mem_nil x)
  | cons x xs ih =>
    refine ih _ ?_
    rcases h with h | h
    · exact Or.inl (dictInsert_key_kept _ _ _ _ h)
    · obtain ⟨y, hy, hk⟩ := h
      rcases List.mem_cons.mp hy with rfl | hy2
      · exact Or.inl (hk ▸ dictInsert_key_mem m (mesh_label y) y)
      · exact Or.inr ⟨y, hy2, hk⟩

/-- C9 amended: when the harvested list holds two artifacts of which
one is UV-preserving (.obj) and the other is not, both are surfaced in
the label-to-path mapping, under two distinct labels (the .obj one
suffixed " (UV)"), each label bound to a path carrying that label;
there is no dedup-by-format preference. -/
theorem both_format_variants_surfaced (files : List String) (p q : String)
    (hpmem : p ∈ files) (hqmem : q ∈ files)
    (hpf : pyLower (pySuffix p) ≠ ".obj") (hqf : pyLower (pySuffix q) = ".obj") :
    mesh_label p ≠ mesh_label q ∧
    (∃ v, pyDictGet (files_mapping files) (mesh_label p) = some v ∧ mesh_label v = mesh_label p) ∧
    (∃ v, pyDictGet (files_mapping files) (mesh_label q) = some v ∧ mesh_label v = mesh_label q) := by
  have key : ∀ r : String, r ∈ files →
      ∃ v, pyDictGet (files_mapping files) (mesh_label r) = some v ∧ mesh_label v = mesh_label r := by
    intro r hr
    have hany : (files_mapping files).any (fun kv => kv.1 = mesh_label r) = true :=
      files_mapping_go_key files [] (mesh_label r) (Or.inr ⟨r, hr, rfl⟩)
    have hsome : (List.find? (fun kv => kv.1 = mesh_label r) (files_mapping files)).isSome = true := by
      rw [List.find?_isSome]
      exact List.any_eq_true.mp hany
    obtain ⟨kv, hkv⟩ := Option.isSome_iff_exists.mp hsome
    have hkey : kv.1 = mesh_label r := by
      have := List.find?_some hkv
      simpa using this
    have hmem : kv ∈ files_mapping files := List.mem_of_find?_eq_some hkv
    have hinv : kv.1 = mesh_label kv.2 :=
      files_mapping_go_invariant files [] (by intro kv h; exact absurd h (List.not_mem_nil kv)) kv hmem
    refine ⟨kv.2, ?_, by rw [← hinv, hkey]⟩
    unfold pyDictGet
    rw [hkv]
    rfl
  exact ⟨mesh_label_ne_of_format p q hpf hqf, key p hpmem, key q hqmem⟩

/-- C9 counterexample: with a .ply and a .obj artifact of the same
part count 5, the mapping surfaces the .ply variant too (under the
key "5 parts"), so the UV-preserving variant is not the only one
surfaced. -/
theorem ply_variant_also_surfaced :
    pyDictGet (files_mapping ["x_0_5.ply", "x_0_5.obj"]) "5 parts" = some "x_0_5.ply" ∧
    pyDictGet (files_mapping ["x_0_5.ply", "x_0_5.obj"]) "5 parts (UV)" = some "x_0_5.obj" := by
  constructor <;> decide

/-- C9 witness: the amended statement at the concrete pair. -/
theorem both_format_variants_surfaced_witness :
    mesh_label "x_0_5.ply" ≠ mesh_label "x_0_5.obj" ∧
    (∃ v, pyDictGet (files_mapping ["x_0_5.ply", "x_0_5.obj"]) (mesh_label "x_0_5.ply") = some v ∧
       mesh_label v = mesh_label "x_0_5.ply") ∧
    (∃ v, pyDictGet (files_mapping ["x_0_5.ply", "x_0_5.obj"]) (mesh_label "x_0_5.obj") = some v ∧
       mesh_label v = mesh_label "x_0_5.obj") :=
  both_format_variants_surfaced ["x_0_5.ply", "x_0_5.obj"] "x_0_5.ply" "x_0_5.obj"
    (by decide) (by decide) (by decide) (by decide)

/-- C6: if everything up to the two stages succeeds, both stages exit
zero and the output ply directory holds no mesh files (or does not
exist), the run returns the Warning status, not an Error, with an empty
artifact list and the pca file passed through. -/
theorem empty_output_warning (file : FileInfo) (p : Params) (env : Env) (out1 out2 : String)
    (hv : (validate_file file).1 = true)
    (h1 : env.mkdirInputExn = none) (h2 : env.mkdirOutputExn = none) (h3 : env.copyExn = none)
    (hs1 : env.stage1 = .completed 0 out1) (hs2 : env.stage2 = .completed 0 out2)
    (hply : env.plyDirExists = false ∨ (env.plyFiles = [] ∧ env.objFiles = [])) :
    statusOf (process_3d_file file p env) = some "Warning: No output files generated" ∧
    meshFilesOf (process_3d_file file p env) = some [] ∧
    pcaOf (process_3d_file file p env) = some env.pcaGlob := by
  have hmesh : (if env.plyDirExists then sortMeshList (env.plyFiles ++ env.objFiles) else []) = [] := by
    rcases hply with h | ⟨ha, hb⟩
    · simp [h]
    · cases henv : env.plyDirExists <;> simp [ha, hb, sortMeshList, List.insertionSort]
  unfold process_3d_file
  simp only [hv, h1, h2, h3, hs1, hs2, run_command, hmesh, Bool.not_true, Bool.not_false,
    if_false, if_true, statusOf, meshFilesOf, pcaOf]
  simp

/-- C6 witness: the Warning path at a concrete environment with both
stages succeeding and zero output files. -/
theorem empty_output_warning_witness :
    statusOf (process_3d_file okFile defParams envNoOut) = some "Warning: No output files generated" ∧
    meshFilesOf (process_3d_file okFile defParams envNoOut) = some [] ∧
    pcaOf (process_3d_file okFile defParams envNoOut) = some envNoOut.pcaGlob :=
  empty_output_warning okFile defParams envNoOut "ok" "ok"
    (by decide) rfl rfl rfl rfl rfl (Or.inr ⟨rfl, rfl⟩)

/-- C1: when stage 1 exits nonzero, an out-of-memory signature in its
captured output yields the GPU-out-of-memory status with the
points-per-face guidance and an empty artifact list, while an output
without the signature yields the generic feature-extraction failure
status, again with no artifacts. -/
theorem stage1_oom_classified (file : FileInfo) (p : Params) (env : Env) (rc : Int) (out : String)
    (hv : (validate_file file).1 = true)
    (h1 : env.mkdirInputExn = none) (h2 : env.mkdirOutputExn = none) (h3 : env.copyExn = none)
    (hs : env.stage1 = .completed rc out) (hrc : rc ≠ 0) :
    ((pyContains out "CUDA out of memory" || pyContains out "OutOfMemoryError") = true →
       statusOf (process_3d_file file p env) =
         some "Error: GPU out of memory. Try reducing \x27Points per face\x27 in advanced options." ∧
       meshFilesOf (process_3d_file file p env) = some [] ∧
       pcaOf (process_3d_file file p env) = some none) ∧
    ((pyContains out "CUDA out of memory" || pyContains out "OutOfMemoryError") = false →
       statusOf (process_3d_file file p env) = some "Error: Feature extraction failed" ∧
       meshFilesOf (process_3d_file file p env) = some [] ∧
       pcaOf (process_3d_file file p env) = some none) := by
  have hbeq : (rc == 0) = false := by simpa using hrc
  constructor <;> intro hoom <;>
    (unfold process_3d_file
     simp only [hv, h1, h2, h3, hs, run_command, hbeq, hoom, Bool.not_true, Bool.not_false,
       if_false, if_true, statusOf, meshFilesOf, pcaOf]
     simp)

/-- C1 witness: the OOM classification at a concrete environment whose
stage-1 output contains "CUDA out of memory". -/
theorem stage1_oom_classified_witness :
    statusOf (process_3d_file okFile defParams envOom) =
      some "Error: GPU out of memory. Try reducing \x27Points per face\x27 in advanced options." ∧
    meshFilesOf (process_3d_file okFile defParams envOom) = some [] ∧
    pcaOf (process_3d_file okFile defParams envOom) = some none :=
  (stage1_oom_classified okFile defParams envOom 1 "RuntimeError: CUDA out of memory"
    (by decide) rfl rfl rfl rfl (by decide)).1 (by decide)

/-- C7 amended: when both stages exit zero and at least one mesh file
is harvested, the stage-1 features directory is gone when the run
returns while the files of the output ply tree are exactly the ones
clustering produced, untouched. -/
theorem features_dir_deleted_on_successful_harvest (file : FileInfo) (p : Params) (env : Env)
    (out1 out2 : String)
    (hv : (validate_file file).1 = true)
    (h1 : env.mkdirInputExn = none) (h2 : env.mkdirOutputExn = none) (h3 : env.copyExn = none)
    (hs1 : env.stage1 = .completed 0 out1) (hs2 : env.stage2 = .completed 0 out2)
    (hply : env.plyDirExists = true) (hne : env.plyFiles ++ env.objFiles ≠ []) :
    (process_3d_file file p env).featuresDirFinal = false ∧
    (process_3d_file file p env).outputPlyFinal = env.plyFiles ++ env.objFiles := by
  have hsne : sortMeshList (env.plyFiles ++ env.objFiles) ≠ [] := by
    intro h
    have hp := List.perm_insertionSort clusterR (env.plyFiles ++ env.objFiles)
    unfold sortMeshList at h
    rw [h] at hp
    exact hne (hp.symm.eq_nil)
  unfold process_3d_file
  simp only [hv, h1, h2, h3, hs1, hs2, run_command, hply, Bool.not_true, Bool.not_false,
    if_false, if_true, hsne, reduceIte]
  simp [hsne]

/-- C7 witness: the deletion on the happy path at a concrete
environment with three harvested artifacts. -/
theorem features_dir_deleted_on_successful_harvest_witness :
    (process_3d_file okFile defParams baseEnv).featuresDirFinal = false ∧
    (process_3d_file okFile defParams baseEnv).outputPlyFinal = baseEnv.plyFiles ++ baseEnv.objFiles :=
  features_dir_deleted_on_successful_harvest okFile defParams baseEnv "ok" "ok"
    (by decide) rfl rfl rfl rfl rfl rfl (by decide)

/-- C7 counterexample: with both stages exiting zero but an empty
output directory, the run returns the Warning result and the features
directory is still there — so "whenever both stages exit successfully
the features directory is deleted" is false on the code. -/
theorem features_dir_survives_empty_harvest :
    envNoOut.stage1 = .completed 0 "ok" ∧ envNoOut.stage2 = .completed 0 "ok" ∧
    statusOf (process_3d_file okFile defParams envNoOut) =
      some "Warning: No output files generated" ∧
    (process_3d_file okFile defParams envNoOut).featuresDirFinal = true := by
  refine ⟨rfl, rfl, by decide, by decide⟩

/-- Every run's operation trace is one of nine closed shapes, one per
return point of `process_3d_file`. -/
theorem trace_shape (file : FileInfo) (p : Params) (env : Env) :
    (process_3d_file file p env).trace = [.validateInput] ∨
    (process_3d_file file p env).trace = [.validateInput, .mkdirInput] ∨
    (process_3d_file file p env).trace = [.validateInput, .mkdirInput, .mkdirOutput] ∨
    (process_3d_file file p env).trace = [.validateInput, .mkdirInput, .mkdirOutput, .copyInput] ∨
    (process_3d_file file p env).trace =
      [.validateInput, .mkdirInput, .mkdirOutput, .copyInput, .cleanupJobs, .clearGpuPre, .spawnStage1] ∨
    (process_3d_file file p env).trace =
      [.validateInput, .mkdirInput, .mkdirOutput, .copyInput, .cleanupJobs, .clearGpuPre, .spawnStage1,
       .globPca, .spawnStage2] ∨
    (process_3d_file file p env).trace =
      [.validateInput, .mkdirInput, .mkdirOutput, .copyInput, .cleanupJobs, .clearGpuPre, .spawnStage1,
       .globPca, .spawnStage2, .scanOutputs] ∨
    (process_3d_file file p env).trace =
      [.validateInput, .mkdirInput, .mkdirOutput, .copyInput, .cleanupJobs, .clearGpuPre, .spawnStage1,
       .globPca, .spawnStage2, .scanOutputs, .clearGpuPost] ∨
    (process_3d_file file p env).trace =
      [.validateInput, .mkdirInput, .mkdirOutput, .copyInput, .cleanupJobs, .clearGpuPre, .spawnStage1,
       .globPca, .spawnStage2, .scanOutputs, .clearGpuPost, .rmtreeFeatures] := by
  simp only [process_3d_file]
  repeat
    first
    | ((try dsimp only); decide)
    | split

/-- C2 counterexample: in a fully successful concrete run the sweep is
invoked, but strictly after the workspace directories are created and
the input file is copied — so "cleanup before workspace allocation" is
false on the code. -/
theorem cleanup_runs_after_workspace_setup :
    Event.cleanupJobs ∈ (process_3d_file okFile defParams baseEnv).trace ∧
    Event.mkdirInput ∈ (process_3d_file okFile defParams baseEnv).trace ∧
    Event.copyInput ∈ (process_3d_file okFile defParams baseEnv).trace ∧
    ¬ ((process_3d_file okFile defParams baseEnv).trace.indexOf Event.cleanupJobs <
        (process_3d_file okFile defParams baseEnv).trace.indexOf Event.mkdirInput) ∧
    ¬ ((process_3d_file okFile defParams baseEnv).trace.indexOf Event.cleanupJobs <
        (process_3d_file okFile defParams baseEnv).trace.indexOf Event.copyInput) := by
  refine ⟨by decide, by decide, by decide, by decide, by decide⟩

/-- C2 amended: on every run in which the sweep is invoked at all, it
runs once per job after the workspace directories are created and the
input file is copied, and before the stage-1 subprocess is spawned. -/
theorem cleanup_between_copy_and_stage1 (file : FileInfo) (p : Params) (env : Env)
    (hc : Event.cleanupJobs ∈ (process_3d_file file p env).trace) :
    (process_3d_file file p env).trace.indexOf Event.mkdirInput <
      (process_3d_file file p env).trace.indexOf Event.cleanupJobs ∧
    (process_3d_file file p env).trace.indexOf Event.mkdirOutput <
      (process_3d_file file p env).trace.indexOf Event.cleanupJobs ∧
    (process_3d_file file p env).trace.indexOf Event.copyInput <
      (process_3d_file file p env).trace.indexOf Event.cleanupJobs ∧
    (process_3d_file file p env).trace.indexOf Event.cleanupJobs <
      (process_3d_file file p env).trace.indexOf Event.spawnStage1 ∧
    Event.mkdirInput ∈ (process_3d_file file p env).trace ∧
    Event.mkdirOutput ∈ (process_3d_file file p env).trace ∧
    Event.copyInput ∈ (process_3d_file file p env).trace ∧
    Event.spawnStage1 ∈ (process_3d_file file p env).trace := by
  revert hc
  rcases trace_shape file p env with h | h | h | h | h | h | h | h | h <;> rw [h] <;> decide

/-- C2 witness: the amended ordering at a concrete successful run. -/
theorem cleanup_between_copy_and_stage1_witness :
    (process_3d_file okFile defParams baseEnv).trace.indexOf Event.mkdirInput <
      (process_3d_file okFile defParams baseEnv).trace.indexOf Event.cleanupJobs ∧
    (process_3d_file okFile defParams baseEnv).trace.indexOf Event.mkdirOutput <
      (process_3d_file okFile defParams baseEnv).trace.indexOf Event.cleanupJobs ∧
    (process_3d_file okFile defParams baseEnv).trace.indexOf Event.copyInput <
      (process_3d_file okFile defParams baseEnv).trace.indexOf Event.cleanupJobs ∧
    (process_3d_file okFile defParams baseEnv).trace.indexOf Event.cleanupJobs <
      (process_3d_file okFile defParams baseEnv).trace.indexOf Event.spawnStage1 ∧
    Event.mkdirInput ∈ (process_3d_file okFile defParams baseEnv).trace ∧
    Event.mkdirOutput ∈ (process_3d_file okFile defParams baseEnv).trace ∧
    Event.copyInput ∈ (process_3d_file okFile defParams baseEnv).trace ∧
    Event.spawnStage1 ∈ (process_3d_file okFile defParams baseEnv).trace :=
  cleanup_between_copy_and_stage1 okFile defParams baseEnv (by decide)

/-- C3 counterexample: a failing input-file copy at a concrete run
makes `process_3d_file` raise an uncaught exception — no structured
(status, artifacts, pca, log) value is produced — although no
subprocess was spawned. -/
theorem workspace_failure_escapes_unstructured :
    raisedOf (process_3d_file okFile defParams envCopyFail) =
      some "PermissionError: [Errno 13] Permission denied" ∧
    statusOf (process_3d_file okFile defParams envCopyFail) = none ∧
    Event.spawnStage1 ∉ (process_3d_file okFile defParams envCopyFail).trace := by
  refine ⟨by decide, by decide, by decide⟩

/-- C3 amended: if workspace directory creation or the input-file copy
fails, the job aborts before any subprocess is launched, but the
failure crosses the job-submission boundary as an unstructured
exception, not as a normalized result tuple. -/
theorem workspace_failure_aborts_before_spawn (file : FileInfo) (p : Params) (env : Env)
    (hv : (validate_file file).1 = true)
    (hfail : env.mkdirInputExn ≠ none ∨ env.mkdirOutputExn ≠ none ∨ env.copyExn ≠ none) :
    (raisedOf (process_3d_file file p env)).isSome = true ∧
    statusOf (process_3d_file file p env) = none ∧
    Event.spawnStage1 ∉ (process_3d_file file p env).trace ∧
    Event.spawnStage2 ∉ (process_3d_file file p env).trace := by
  cases hm1 : env.mkdirInputExn with
  | some e =>
    unfold process_3d_file
    simp only [hv, hm1, Bool.not_true, not_true, if_false, if_true]
    simp only [raisedOf, statusOf]
    exact ⟨rfl, trivial, by decide, by decide⟩
  | none =>
    cases hm2 : env.mkdirOutputExn with
    | some e =>
      unfold process_3d_file
      simp only [hv, hm1, hm2, Bool.not_true, not_true, if_false, if_true]
      simp only [raisedOf, statusOf]
      exact ⟨rfl, trivial, by decide, by decide⟩
    | none =>
      cases hm3 : env.copyExn with
      | some e =>
        unfold process_3d_file
        simp only [hv, hm1, hm2, hm3, Bool.not_true, not_true, if_false, if_true]
        simp only [raisedOf, statusOf]
        exact ⟨rfl, trivial, by decide, by decide⟩
      | none =>
        rw [hm1, hm2, hm3] at hfail
        simp at hfail

/-- C3 witness: the amended behaviour at the concrete copy-failure
environment. -/
theorem workspace_failure_aborts_before_spawn_witness :
    (raisedOf (process_3d_file okFile defParams envCopyFail)).isSome = true ∧
    statusOf (process_3d_file okFile defParams envCopyFail) = none ∧
    Event.spawnStage1 ∉ (process_3d_file okFile defParams envCopyFail).trace ∧
    Event.spawnStage2 ∉ (process_3d_file okFile defParams envCopyFail).trace :=
  workspace_failure_aborts_before_spawn okFile defParams envCopyFail (by decide)
    (Or.inr (Or.inr (by decide)))

end PartField
